import Mathlib

/-!
Shallow embedding of `src/picking1.4.py` — the LPI picking-performance
dashboard.  The embedding covers the data-ingestion and aggregation
pipeline: per-file parsing (`load_and_process_data`), the two threshold
exclusions, the period/weekday windowing, the four aggregation tables with
their `min`-method ranks, and the JSON config loader (`load_config`).
Line numbers in doc comments refer to `src/picking1.4.py`.
-/

namespace Picking

/-! ### Generic helpers (models of pandas/Python library behaviour) -/

/-- First-occurrence de-duplication with an explicit `seen` accumulator
(structural recursion).  Models `DataFrame.drop_duplicates` (line 81) and
`Series.unique` (line 200), both of which keep the first occurrence. -/
def dedupFirstAux {α : Type} [DecidableEq α] (seen : List α) : List α → List α
  | [] => []
  | a :: l => if a ∈ seen then dedupFirstAux seen l else a :: dedupFirstAux (a :: seen) l

/-- First-occurrence de-duplication of a list. -/
def dedupFirst {α : Type} [DecidableEq α] (l : List α) : List α :=
  dedupFirstAux [] l

/-- Characters removed by Python `str.strip()` with no argument. -/
def isPySpace (c : Char) : Bool :=
  c == ' ' || c == '\t' || c == '\n' || c == '\r' || c == '\x0b' || c == '\x0c'

/-- Python `str.strip()`: drop whitespace from both ends (line 62). -/
def pyStrip (cs : List Char) : List Char :=
  ((cs.dropWhile isPySpace).reverse.dropWhile isPySpace).reverse

/-- `os.path.basename` on a POSIX path: everything after the last `/`
(line 54). -/
def basename (cs : List Char) : List Char :=
  (cs.reverse.takeWhile (fun c => c != '/')).reverse

/-- `str.replace(pat, '')` for a fixed pattern: removes every occurrence
(line 54 strips the fixed filename prefix).  Fuel-indexed so the
recursion is structural; the fuel is the input length, which suffices
because every step consumes at least one character. -/
def removeAllAux (pat : List Char) : Nat → List Char → List Char
  | 0, _ => []
  | _ + 1, [] => []
  | fuel + 1, c :: rest =>
    if pat.isPrefixOf (c :: rest) ∧ pat ≠ [] then
      removeAllAux pat fuel (rest.drop (pat.length - 1))
    else
      c :: removeAllAux pat fuel rest

/-- `s.replace(pat, '')` on character lists. -/
def removeAll (pat s : List Char) : List Char :=
  removeAllAux pat s.length s

/-- `s.split('.')[0]`: the characters before the first `.` (line 54). -/
def takeUntilDot (cs : List Char) : List Char :=
  cs.takeWhile (fun c => c != '.')

/-- The numeric value of a digit string (most significant first). -/
def digitsToNat (cs : List Char) : Nat :=
  cs.foldl (fun n c => n * 10 + (c.toNat - 48)) 0

/-! ### Dates -/

/-- A calendar date as parsed from the `YYYYMMDD` filename token
(lines 54-55). -/
structure Date where
  year : Nat
  month : Nat
  day : Nat
  deriving DecidableEq, Repr

/-- `Timestamp.weekday()` as pandas computes it: Monday = 0 .. Sunday = 6
(line 57 tests `== 6`).  Standard civil-calendar day count: a 400-year
era is an exact number of weeks (146097 ≡ 0 mod 7) and day 0 of an era
(1 March of year era·400) is a Wednesday (= 2). -/
def Date.weekday (d : Date) : Nat :=
  let y := if d.month ≤ 2 then d.year - 1 else d.year
  let yoe := y - y / 400 * 400
  let mp := if d.month ≤ 2 then d.month + 9 else d.month - 3
  let doy := (153 * mp + 2) / 5 + (d.day - 1)
  let doe := yoe * 365 + yoe / 4 - yoe / 100 + doy
  (doe + 2) % 7

/-- Gregorian leap-year rule. -/
def isLeapYear (y : Nat) : Bool :=
  y % 4 == 0 && (y % 100 != 0 || y % 400 == 0)

/-- Days in a month of a given year. -/
def daysInMonth (y m : Nat) : Nat :=
  if m == 2 then (if isLeapYear y then 29 else 28)
  else if m == 4 || m == 6 || m == 9 || m == 11 then 30
  else 31

/-- Model of `pd.to_datetime(date_str, format='%Y%m%d')` (line 55): the
token must be exactly eight digits forming a real calendar date inside
the pandas `Timestamp` range (modelled as the whole years 1678..2261;
the partial boundary years 1677/2262 are outside the model and no claim
touches them).  `none` models the raised exception, which the handler at
line 74 turns into skipping the file. -/
def parseDateYYYYMMDD (cs : List Char) : Option Date :=
  if cs.length = 8 ∧ cs.all Char.isDigit then
    let y := digitsToNat (cs.take 4)
    let m := digitsToNat ((cs.drop 4).take 2)
    let d := digitsToNat (cs.drop 6)
    if 1678 ≤ y ∧ y ≤ 2261 ∧ 1 ≤ m ∧ m ≤ 12 ∧ 1 ≤ d ∧ d ≤ daysInMonth y m then
      some ⟨y, m, d⟩
    else none
  else none

/-- The fixed filename prefix stripped at line 54. -/
def FILE_PREFIX : List Char := "피킹바코드입력-".toList

/-- Line 54: `os.path.basename(name).replace('피킹바코드입력-', '').split('.')[0]`. -/
def extractDateToken (name : String) : List Char :=
  takeUntilDot (removeAll FILE_PREFIX (basename name.toList))

/-! ### Numeric and time-of-day coercions -/

/-- Unsigned decimal literal: digits with an optional fractional part,
at least one digit overall. -/
def parseUnsigned (cs : List Char) : Option ℚ :=
  let intPart := cs.takeWhile Char.isDigit
  let rest := cs.dropWhile Char.isDigit
  match rest with
  | [] => if intPart = [] then none else some (digitsToNat intPart : ℚ)
  | '.' :: frac =>
    if frac.all Char.isDigit ∧ (intPart ≠ [] ∨ frac ≠ []) then
      some ((digitsToNat intPart : ℚ) + (digitsToNat frac : ℚ) / ((10 : ℚ) ^ frac.length))
    else none
  | _ => none

/-- Model of `pd.to_numeric(x, errors='coerce')` (line 68) on plain
decimal literals: optional surrounding whitespace, optional sign, digits
with at most one decimal point.  `none` models the `NaN` that
`errors='coerce'` produces, dropped at line 69.  (The pandas parser also
accepts exotic forms such as exponents; no claim exercises them.) -/
def pyToNumeric (s : String) : Option ℚ :=
  match pyStrip s.toList with
  | '-' :: rest => (parseUnsigned rest).map (fun q => -q)
  | '+' :: rest => parseUnsigned rest
  | cs => parseUnsigned cs

/-- A clock value as `.dt.time` delivers it: components of a valid
time of day (`datetime.time` guarantees the ranges). -/
structure TimeOfDay where
  hour : Nat
  minute : Nat
  second : Nat
  deriving DecidableEq, Repr

/-- Model of `pd.to_datetime(x, errors='coerce').dt.time` (line 70)
restricted to clock strings `H:MM` / `H:MM:SS` (optionally surrounded by
whitespace): pandas parses such a string as today's date at that clock
time and `.dt.time` keeps the clock part.  `none` models `NaT`, dropped
at line 72.  Pandas also parses full datetime strings and a few other
formats; no claim exercises them, and every successful pandas parse
yields in-range clock components, which is the property the claims
depend on. -/
def pyToTime (s : String) : Option TimeOfDay :=
  let cs := pyStrip s.toList
  let p1 := cs.takeWhile (fun c => c != ':')
  let r1 := cs.dropWhile (fun c => c != ':')
  match r1 with
  | ':' :: rest1 =>
    let p2 := rest1.takeWhile (fun c => c != ':')
    let r2 := rest1.dropWhile (fun c => c != ':')
    let p3? : Option (List Char) :=
      match r2 with
      | [] => some []
      | ':' :: rest2 =>
        if rest2 = [] ∨ rest2.any (fun c => c == ':') then none else some rest2
      | _ => none
    match p3? with
    | none => none
    | some p3 =>
      if p1 ≠ [] ∧ p1.all Char.isDigit ∧ p2.length = 2 ∧ p2.all Char.isDigit ∧
          (p3 = [] ∨ (p3.length = 2 ∧ p3.all Char.isDigit)) then
        let h := digitsToNat p1
        let m := digitsToNat p2
        let sec := digitsToNat p3
        if h ≤ 23 ∧ m ≤ 59 ∧ sec ≤ 59 then some ⟨h, m, sec⟩ else none
      else none
  | _ => none

/-- `convert_time_to_seconds` (lines 41-44) on a valid time value
(the `np.nan` branch corresponds to rows already dropped at line 72). -/
def convert_time_to_seconds (t : TimeOfDay) : Nat :=
  t.hour * 3600 + t.minute * 60 + t.second

/-- numpy `astype(int)` on a finite float: truncation toward zero
(line 82; the values there are usually integral, but `pd.to_numeric`
also accepts fractions such as `3.5`, which truncate). -/
def ratTrunc (q : ℚ) : Int :=
  if 0 ≤ q then ⌊q⌋ else ⌈q⌉

/-- `re.compile(r'[가-힣]+').search(x) is not None` (lines 66-67):
the name contains at least one Hangul-syllable character
(U+AC00..U+D7A3). -/
def hasHangul (s : String) : Bool :=
  s.toList.any (fun c => decide (0xAC00 ≤ c.toNat) && decide (c.toNat ≤ 0xD7A3))

/-! ### The Record Parser and Corpus Builder (`load_and_process_data`) -/

/-- One spreadsheet row as `pd.read_excel(..., dtype=str)` delivers it
(lines 59-60): three text cells; a missing cell is `NaN` (`none`). -/
structure RawRow where
  name : Option String
  countStr : Option String
  durStr : Option String
  deriving DecidableEq, Repr

/-- One uploaded file: its claimed filename and the `작업자현황` sheet
contents after `header=2, usecols=[...]`; `sheet = none` models a file
whose excel read raises (missing sheet/columns), which line 74 turns
into skipping the file. -/
structure UploadedFile where
  name : String
  sheet : Option (List RawRow)
  deriving DecidableEq, Repr

/-- A row that survived all per-file filters (state after line 72),
before the corpus-level canonicalisation of lines 82-92. -/
structure ValidRow where
  date : Date
  worker : String
  countQ : ℚ
  dur : TimeOfDay
  deriving DecidableEq, Repr

/-- A `(date, worker-name)` pair of the all-workers dataset (line 65). -/
abbrev Sighting := Date × String

/-- Lines 53-76: the per-file body of `load_and_process_data`.  Returns
the pair (rows appended to `valid_data_list`, rows appended to
`all_workers_list`); a skipped file (any `continue`, or any exception)
contributes `([], [])`. -/
def processFile (f : UploadedFile) : List ValidRow × List Sighting :=
  match parseDateYYYYMMDD (extractDateToken f.name) with
  | none => ([], [])
  | some pickupDate =>
    if pickupDate.weekday = 6 then ([], [])
    else
      match f.sheet with
      | none => ([], [])
      | some rows =>
        let named := rows.filterMap (fun r =>
          match r.name with
          | none => none
          | some n => if pyStrip n.toList ≠ [] then some (n, r) else none)
        if named = [] then ([], [])
        else
          let sightings := named.map (fun nr => (pickupDate, nr.1))
          let hangulRows := named.filter (fun nr => hasHangul nr.1)
          let numRows := hangulRows.filterMap (fun nr =>
            match nr.2.countStr.bind pyToNumeric with
            | none => none
            | some q => some (nr.1, q, nr.2))
          let validRows := numRows.filterMap (fun nqr =>
            match nqr.2.2.durStr.bind pyToTime with
            | none => none
            | some t =>
              some { date := pickupDate, worker := nqr.1, countQ := nqr.2.1, dur := t })
          (validRows, sightings)

/-- One canonical row of the valid master dataframe after lines 82-92:
`피킹횟수` as a strict int, `평균소요시간(분)` = seconds / 60.  The
derived calendar columns (연도/월/일/연월/요일) are functions of `date`
and are exposed as projections below. -/
structure PickRecord where
  date : Date
  worker : String
  count : Int
  durMin : ℚ
  deriving DecidableEq, Repr

/-- 연도 column (line 85). -/
def PickRecord.year (r : PickRecord) : Nat := r.date.year

/-- 월 column (line 86). -/
def PickRecord.month (r : PickRecord) : Nat := r.date.month

/-- 연월 label (line 88), as the year-month pair. -/
def PickRecord.yearMonth (r : PickRecord) : Nat × Nat := (r.date.year, r.date.month)

/-- 요일 column (lines 89-91), as the index into `DAYS_ORDER`
(Sunday = 6 never occurs in the valid corpus because Sunday files are
skipped at line 57). -/
def PickRecord.wd (r : PickRecord) : Nat := r.date.weekday

/-- Lines 82-84 for one row: numeric canonicalisation of a valid row. -/
def canonicalize (v : ValidRow) : PickRecord :=
  { date := v.date
    worker := v.worker
    count := ratTrunc v.countQ
    durMin := (convert_time_to_seconds v.dur : ℚ) / 60 }

/-- `load_and_process_data` (lines 46-93) over the whole upload batch:
concatenate the per-file results; if no file contributed valid rows,
both outputs are empty (lines 48-49 and 78); otherwise canonicalise the
valid rows and de-duplicate the sightings keeping first occurrences
(lines 80-93). -/
def load_and_process_data (files : List UploadedFile) : List PickRecord × List Sighting :=
  let results := files.map processFile
  let valids := (results.map Prod.fst).flatten
  if valids = [] then ([], [])
  else (valids.map canonicalize, dedupFirst ((results.map Prod.snd).flatten))

/-! ### Threshold Filter (lines 119-121) -/

/-- Lines 120-121: the two sequential threshold exclusions applied to the
freshly built corpus.  `mt` is `minute_threshold`, `pct` is
`picking_count_threshold`; the first filter keeps rows with
`평균소요시간(분) <= minute_threshold`, the second keeps rows with
`피킹횟수 >= picking_count_threshold`. -/
def thresholdFilter (mt : ℚ) (pct : Int) (recs : List PickRecord) : List PickRecord :=
  (recs.filter (fun r => decide (r.durMin ≤ mt))).filter (fun r => decide (pct ≤ r.count))

/-! ### Period Selector (lines 133-167) -/

/-- The window specification chosen in the 기간 필터 UI (line 136):
전체 / 연도별 / 월별 / 일별 / 요일별 (the weekday case carries the
`selected_weekdays` list produced from the multiselect at lines 160-163). -/
inductive Window where
  | all
  | byYear (y : Nat)
  | byMonth (y : Nat) (m : Nat)
  | byDay (d : Date)
  | byWeekdaySet (days : List Nat)
  deriving DecidableEq, Repr

/-- Lines 123-167: produce `(filtered_data, filtered_all_workers)` from the
threshold-filtered corpus and the all-workers set.  Every branch narrows
both datasets with the same date predicate; an empty weekday multiselect
yields two empty datasets (lines 166-167). -/
def applyWindow (w : Window) (recs : List PickRecord) (sgt : List Sighting) :
    List PickRecord × List Sighting :=
  match w with
  | .all => (recs, sgt)
  | .byYear y =>
    (recs.filter (fun r => r.date.year == y), sgt.filter (fun s => s.1.year == y))
  | .byMonth y m =>
    (recs.filter (fun r => r.date.year == y && r.date.month == m),
     sgt.filter (fun s => s.1.year == y && s.1.month == m))
  | .byDay d =>
    (recs.filter (fun r => r.date == d), sgt.filter (fun s => s.1 == d))
  | .byWeekdaySet days =>
    if days = [] then ([], [])
    else (recs.filter (fun r => days.contains r.date.weekday),
          sgt.filter (fun s => days.contains s.1.weekday))

/-! ### Aggregation Engine -/

/-- `피킹횟수` column sum of a group of records. -/
def sumCounts (g : List PickRecord) : Int :=
  (g.map PickRecord.count).sum

/-- `(x['평균소요시간(분)'] * x['피킹횟수']).sum()` for a group. -/
def weightedSum (g : List PickRecord) : ℚ :=
  (g.map (fun r => r.durMin * (r.count : ℚ))).sum

/-- Finite-float division, `some` of the quotient for a nonzero
denominator and `none` for the non-finite result (`NaN`) that numpy
produces when the unguarded division of line 195 meets a zero
denominator.  (A zero denominator with a nonzero numerator would give
`±inf` rather than `NaN` in numpy, which is only reachable through
negative pick counts and then crashes the later `astype(int)`; the
theorems about the worker table therefore assume non-negative counts.) -/
def npDiv (x y : ℚ) : Option ℚ :=
  if y = 0 then none else some (x / y)

/-- Line 180: the overall `avg_time_minutes` metric, with its
`if total_picks > 0 else 0` guard. -/
def avg_time_minutes (recs : List PickRecord) : ℚ :=
  if 0 < sumCounts recs then weightedSum recs / (sumCounts recs : ℚ) else 0

/-- The guarded per-group weighted average used by the period lambda
(line 226) and the weekday lambda (line 240):
`... .sum() / x['피킹횟수'].sum() if x['피킹횟수'].sum() > 0 else 0`. -/
def guardedWAvg (g : List PickRecord) : ℚ :=
  if 0 < sumCounts g then weightedSum g / (sumCounts g : ℚ) else 0

/-- `Series.rank(method='min', ascending=True)` on a NaN-free column: a
value's rank is one plus the number of strictly smaller entries, so equal
values share the minimal applicable rank (lines 203, 245, 261). -/
def rankMinAsc {α : Type} [LinearOrder α] (xs : List α) (v : α) : Nat :=
  1 + xs.countP (fun y => decide (y < v))

/-- `Series.rank(method='min', ascending=False)`: one plus the number of
strictly larger entries (lines 204, 207, 246, 262). -/
def rankMinDesc {α : Type} [LinearOrder α] (xs : List α) (v : α) : Nat :=
  1 + xs.countP (fun y => decide (v < y))

/-- numpy/pandas rounding: to nearest, ties to even (`Series.round`,
Python `round`). -/
def roundHalfEven (q : ℚ) : Int :=
  let f := ⌊q⌋
  if q - f < 1 / 2 then f
  else if 1 / 2 < q - f then f + 1
  else if f % 2 = 0 then f else f + 1

/-- `Series.round(1)` (lines 206, 243). -/
def round1 (q : ℚ) : ℚ :=
  (roundHalfEven (q * 10) : ℚ) / 10

/-! #### byWorker (lines 194-213) -/

/-- The group of records of one worker (`groupby('작업자명')`). -/
def recsOfWorker (recs : List PickRecord) (w : String) : List PickRecord :=
  recs.filter (fun r => r.worker == w)

/-- Distinct dates in a group: the `('날짜', 'nunique')` aggregate. -/
def numDays (g : List PickRecord) : Nat :=
  (dedupFirst (g.map PickRecord.date)).length

/-- `filtered_all_workers['작업자명'].unique()` (line 200): the workers
ever sighted in the window, first occurrence first. -/
def sightedWorkers (sgt : List Sighting) : List String :=
  dedupFirst (sgt.map Prod.snd)

/-- The `평균소요시간_분` cell of one sighted worker after the merge and
`fillna(0)` of line 201: the unguarded lambda aggregate of line 195 when
the worker has records (`fillna` turning a zero-denominator `NaN` into
0), and the zero-filled left-join miss otherwise. -/
def workerAvgDur (recs : List PickRecord) (w : String) : ℚ :=
  let g := recsOfWorker recs w
  if g = [] then 0 else (npDiv (weightedSum g) ((sumCounts g : Int) : ℚ)).getD 0

/-- The `총_피킹횟수` cell (line 196, zero-filled by line 201). -/
def workerTotal (recs : List PickRecord) (w : String) : Int :=
  sumCounts (recsOfWorker recs w)

/-- The `작업일수` cell (line 197, zero-filled by line 201). -/
def workerDays (recs : List PickRecord) (w : String) : Nat :=
  numDays (recsOfWorker recs w)

/-- The `일평균_피킹횟수` cell (line 206):
`(총_피킹횟수 / 작업일수).where(작업일수 > 0, 0).round(1)`. -/
def workerDailyAvg (recs : List PickRecord) (w : String) : ℚ :=
  if 0 < workerDays recs w then
    round1 ((workerTotal recs w : ℚ) / (workerDays recs w : ℚ))
  else 0

/-- The `평균소요시간_분` column of `final_worker_analysis` (ranked
unrounded at line 203; the display rounding happens later, line 210). -/
def workerAvgCol (recs : List PickRecord) (sgt : List Sighting) : List ℚ :=
  (sightedWorkers sgt).map (workerAvgDur recs)

/-- The `총_피킹횟수` column of `final_worker_analysis`. -/
def workerTotalCol (recs : List PickRecord) (sgt : List Sighting) : List Int :=
  (sightedWorkers sgt).map (workerTotal recs)

/-- The `일평균_피킹횟수` column (already rounded to one decimal when its
rank is taken at line 207). -/
def workerDailyCol (recs : List PickRecord) (sgt : List Sighting) : List ℚ :=
  (sightedWorkers sgt).map (workerDailyAvg recs)

/-- One row of `final_worker_analysis` after lines 200-210.  `avgDur` is
the column value ranked at line 203; `avgDurInt` is its display rounding
from line 210.  Each rank is computed over the whole column and then
forced to 0 for a zero-pick worker by `.where(총_피킹횟수 > 0, 0)`
(lines 203, 204, 207). -/
structure WorkerRow where
  worker : String
  avgDur : ℚ
  avgDurInt : Int
  timeRank : Nat
  totalCount : Int
  countRank : Nat
  dayCount : Nat
  dailyAvg : ℚ
  dailyRank : Nat
  deriving DecidableEq, Repr

/-- The `final_worker_analysis` row of one sighted worker. -/
def workerRowOf (recs : List PickRecord) (sgt : List Sighting) (w : String) : WorkerRow :=
  let a := workerAvgDur recs w
  let t := workerTotal recs w
  { worker := w
    avgDur := a
    avgDurInt := roundHalfEven a
    timeRank := if 0 < t then rankMinAsc (workerAvgCol recs sgt) a else 0
    totalCount := t
    countRank := if 0 < t then rankMinDesc (workerTotalCol recs sgt) t else 0
    dayCount := workerDays recs w
    dailyAvg := workerDailyAvg recs w
    dailyRank := if 0 < t then rankMinDesc (workerDailyCol recs sgt) (workerDailyAvg recs w) else 0 }

/-- `final_worker_analysis` (lines 194-210): one row per sighted worker. -/
def final_worker_analysis (recs : List PickRecord) (sgt : List Sighting) : List WorkerRow :=
  (sightedWorkers sgt).map (workerRowOf recs sgt)

/-! #### byPeriod (lines 224-229) -/

/-- A month group: `groupby(날짜.dt.to_period('M'))` (窗 type 전체/연도별). -/
def monthGroup (recs : List PickRecord) (ym : Nat × Nat) : List PickRecord :=
  recs.filter (fun r => r.date.year == ym.1 && r.date.month == ym.2)

/-- A day group: `groupby(날짜.dt.to_period('D'))` (any finer window). -/
def dayGroup (recs : List PickRecord) (d : Date) : List PickRecord :=
  recs.filter (fun r => r.date == d)

/-- The 기간별 weighted average of a month group (line 226). -/
def trendAvgMonth (recs : List PickRecord) (ym : Nat × Nat) : ℚ :=
  guardedWAvg (monthGroup recs ym)

/-- The 기간별 weighted average of a day group (line 226). -/
def trendAvgDay (recs : List PickRecord) (d : Date) : ℚ :=
  guardedWAvg (dayGroup recs d)

/-! #### byWeekday (lines 238-246) -/

/-- The group of one weekday (`groupby('요일', observed=False)`; the six
ordered categories of `DAYS_ORDER` are indices 0..5). -/
def weekdayGroup (recs : List PickRecord) (wd : Nat) : List PickRecord :=
  recs.filter (fun r => r.date.weekday == wd)

/-- The `평균소요시간_분` column of `dow_analysis`, already rounded to an
int (line 244) before the rank of line 245 is taken. -/
def dowAvgIntCol (recs : List PickRecord) : List Int :=
  (List.range 6).map (fun wd => roundHalfEven (guardedWAvg (weekdayGroup recs wd)))

/-- The `총_피킹횟수` column of `dow_analysis`. -/
def dowTotalCol (recs : List PickRecord) : List Int :=
  (List.range 6).map (fun wd => sumCounts (weekdayGroup recs wd))

/-- One row of `dow_analysis` (lines 238-246): `observed=False` keeps all
six weekday categories, zero-filled when empty; the two ranks have no
zero-pick override here. -/
structure DowRow where
  wd : Nat
  totalCount : Int
  avgDurInt : Int
  dayCount : Nat
  dailyAvg : ℚ
  timeRank : Nat
  countRank : Nat
  deriving DecidableEq, Repr

/-- The `dow_analysis` row of one weekday index. -/
def dowRowOf (recs : List PickRecord) (wd : Nat) : DowRow :=
  let g := weekdayGroup recs wd
  let t := sumCounts g
  let a := roundHalfEven (guardedWAvg g)
  { wd := wd
    totalCount := t
    avgDurInt := a
    dayCount := numDays g
    dailyAvg := if numDays g = 0 then 0 else round1 ((t : ℚ) / (numDays g : ℚ))
    timeRank := rankMinAsc (dowAvgIntCol recs) a
    countRank := rankMinDesc (dowTotalCol recs) t }

/-- `dow_analysis` (lines 238-246): one row per weekday category. -/
def dow_analysis (recs : List PickRecord) : List DowRow :=
  (List.range 6).map (dowRowOf recs)

/-! #### detail (lines 260-263) -/

/-- Stable insertion step for the detail sort. -/
def insertBy {α : Type} (le : α → α → Bool) (a : α) : List α → List α
  | [] => [a]
  | b :: l => if le a b then a :: b :: l else b :: insertBy le a l

/-- Stable insertion sort (model of the stable multi-column
`sort_values`). -/
def sortBy {α : Type} (le : α → α → Bool) (l : List α) : List α :=
  l.foldr (insertBy le) []

/-- A numeric key that orders valid calendar dates chronologically. -/
def Date.toKey (d : Date) : Nat :=
  (d.year * 100 + d.month) * 100 + d.day

/-- Python/pandas string comparison: lexicographic on Unicode code
points. -/
def charListLE : List Char → List Char → Bool
  | [], _ => true
  | _ :: _, [] => false
  | a :: as, b :: bs =>
    if a.toNat < b.toNat then true
    else if b.toNat < a.toNat then false
    else charListLE as bs

/-- The detail-tab sort order of line 260: date descending, then worker
name ascending. -/
def detailLE (r1 r2 : PickRecord) : Bool :=
  if r1.date.toKey = r2.date.toKey then charListLE r1.worker.toList r2.worker.toList
  else decide (r2.date.toKey < r1.date.toKey)

/-- One row of the 상세 데이터 view (lines 260-263): the record, its two
ranks over the whole windowed set, and the display rounding of
`평균소요시간(분)` from line 263. -/
structure DetailRow where
  record : PickRecord
  timeRank : Nat
  countRank : Nat
  durMinInt : Int
  deriving DecidableEq, Repr

/-- `display_df` (lines 260-263): the windowed records sorted by date
descending then worker ascending, each row ranked against every other
windowed row. -/
def display_df (recs : List PickRecord) : List DetailRow :=
  let sorted := sortBy detailLE recs
  let durs := sorted.map PickRecord.durMin
  let cnts := sorted.map PickRecord.count
  sorted.map (fun r =>
    { record := r
      timeRank := rankMinAsc durs r.durMin
      countRank := rankMinDesc cnts r.count
      durMinInt := roundHalfEven r.durMin })

/-! ### Config persistence (lines 24-39) -/

/-- The JSON value model for `json.load` results. -/
inductive Json where
  | null
  | bool (b : Bool)
  | num (q : ℚ)
  | str (s : String)
  | arr (elems : List Json)
  | obj (fields : List (String × Json))

/-- Python `dict` assignment on a string-keyed ordered association list:
replace in place if the key exists, append otherwise (insertion order is
preserved, as in CPython). -/
def setKey : List (String × Json) → String → Json → List (String × Json)
  | [], k, v => [(k, v)]
  | (k', v') :: rest, k, v =>
    if k' = k then (k, v) :: rest else (k', v') :: setKey rest k v

/-- `dict.update` with a list of key/value pairs. -/
def dictUpdatePairs (d : List (String × Json)) (us : List (String × Json)) :
    List (String × Json) :=
  us.foldl (fun acc kv => setKey acc kv.1 kv.2) d

/-- Does a decoded JSON array element have the `[key, value]` pair shape
that `dict.update` accepts? -/
def pairShape : Json → Option (String × Json)
  | .arr (.str k :: v :: []) => some (k, v)
  | _ => none

/-- `default_config.update(config)` (line 36) on the decoded JSON value:
succeeds for a JSON object (per-key merge) and for an array of
string-keyed pairs (also accepted by Python); on anything else the call
raises `TypeError`/`ValueError`, which `load_config` does not catch —
modelled as `.error`.  (Python additionally tolerates a couple of exotic
iterables, e.g. pair arrays with non-string keys, which a string-keyed
dict model cannot represent; no claim exercises them.) -/
def pyDictUpdate (d : List (String × Json)) : Json → Except Unit (List (String × Json))
  | .obj kvs => .ok (dictUpdatePairs d kvs)
  | .arr xs =>
    match xs.mapM pairShape with
    | some ps => .ok (dictUpdatePairs d ps)
    | none => .error ()
  | .str s => if s = "" then .ok d else .error ()
  | _ => .error ()

/-- The in-code defaults of line 31. -/
def defaultConfig : List (String × Json) :=
  [("minute_threshold", .num 30), ("picking_count_threshold", .num 0)]

/-- The observable state of `config.json` when `load_config` runs:
absent, present but not decodable as JSON, or decoded to a JSON value. -/
inductive ConfigFile where
  | missing
  | undecodable
  | parsed (j : Json)

/-- `load_config` (lines 30-39): a missing file skips the read
(`os.path.exists` guard) and returns the defaults; undecodable content
raises `json.JSONDecodeError`, which is caught (`pass`) and also returns
the defaults; decoded content is merged by `default_config.update(config)`,
whose `TypeError`/`ValueError` on non-dict-like values is *not* in the
`except` clause and escapes. -/
def load_config : ConfigFile → Except Unit (List (String × Json))
  | .missing => .ok defaultConfig
  | .undecodable => .ok defaultConfig
  | .parsed j => pyDictUpdate defaultConfig j

/-! ### The spec-side weighted-average formula -/

/-- The spec's weighted-average formula, written from the spec's words
("weighted-average-duration = Σ(duration_i × count_i) / Σ(count_i); if
Σcount_i = 0, result is 0") for comparison with the code's aggregates. -/
def specWeightedAvg (g : List PickRecord) : ℚ :=
  if sumCounts g = 0 then 0 else weightedSum g / ((sumCounts g : Int) : ℚ)

/-! ### Supporting lemmas -/

theorem mem_dedupFirstAux {α : Type} [DecidableEq α] {a : α} :
    ∀ (l seen : List α), a ∈ dedupFirstAux seen l ↔ a ∈ l ∧ a ∉ seen := by
  intro l
  induction l with
  | nil => intro seen; simp [dedupFirstAux]
  | cons b l ih =>
    intro seen
    by_cases hb : b ∈ seen
    · rw [dedupFirstAux, if_pos hb, ih seen]
      constructor
      · rintro ⟨h1, h2⟩; exact ⟨List.mem_cons_of_mem b h1, h2⟩
      · rintro ⟨h1, h2⟩
        rcases List.mem_cons.mp h1 with rfl | h1
        · exact absurd hb h2
        · exact ⟨h1, h2⟩
    · rw [dedupFirstAux, if_neg hb]
      rw [List.mem_cons, ih (b :: seen)]
      constructor
      · rintro (rfl | ⟨h1, h2⟩)
        · exact ⟨List.mem_cons_self a l, hb⟩
        · exact ⟨List.mem_cons_of_mem b h1, fun hc => h2 (List.mem_cons_of_mem b hc)⟩
      · rintro ⟨h1, h2⟩
        by_cases hab : a = b
        · exact Or.inl hab
        · rcases List.mem_cons.mp h1 with rfl | h1
          · exact Or.inl rfl
          · refine Or.inr ⟨h1, fun hc => ?_⟩
            rcases List.mem_cons.mp hc with h | hc
            · exact hab h
            · exact h2 hc

theorem mem_dedupFirst {α : Type} [DecidableEq α] {a : α} {l : List α} :
    a ∈ dedupFirst l ↔ a ∈ l := by
  rw [dedupFirst, mem_dedupFirstAux]
  simp

theorem mem_sightedWorkers {sgt : List Sighting} {w : String} (d : Date)
    (h : (d, w) ∈ sgt) : w ∈ sightedWorkers sgt := by
  rw [sightedWorkers, mem_dedupFirst]
  exact List.mem_map.mpr ⟨(d, w), h, rfl⟩

theorem sumCounts_nonneg {g : List PickRecord} (h : ∀ r ∈ g, 0 ≤ r.count) :
    0 ≤ sumCounts g := by
  apply List.sum_nonneg
  intro x hx
  obtain ⟨r, hr, rfl⟩ := List.mem_map.mp hx
  exact h r hr

theorem counts_eq_zero_of_sum_eq_zero {g : List PickRecord}
    (h : ∀ r ∈ g, 0 ≤ r.count) (hs : sumCounts g = 0) : ∀ r ∈ g, r.count = 0 := by
  induction g with
  | nil => simp
  | cons a g ih =>
    have ha : 0 ≤ a.count := h a (List.mem_cons_self a g)
    have htl : ∀ r ∈ g, 0 ≤ r.count := fun r hr => h r (List.mem_cons_of_mem a hr)
    have hg : 0 ≤ sumCounts g := sumCounts_nonneg htl
    have hsum : a.count + sumCounts g = 0 := by
      simpa [sumCounts] using hs
    intro r hr
    rcases List.mem_cons.mp hr with rfl | hr
    · omega
    · exact ih htl (by omega) r hr

theorem weightedSum_eq_zero {g : List PickRecord}
    (h : ∀ r ∈ g, 0 ≤ r.count) (hs : sumCounts g = 0) : weightedSum g = 0 := by
  have h0 := counts_eq_zero_of_sum_eq_zero h hs
  apply List.sum_eq_zero
  intro x hx
  obtain ⟨r, hr, rfl⟩ := List.mem_map.mp hx
  rw [h0 r hr]
  simp

theorem guardedWAvg_eq_spec {g : List PickRecord} (h : ∀ r ∈ g, 0 ≤ r.count) :
    guardedWAvg g = specWeightedAvg g := by
  have hnn := sumCounts_nonneg h
  rw [guardedWAvg, specWeightedAvg]
  by_cases hz : sumCounts g = 0
  · simp [hz]
  · have hpos : 0 < sumCounts g := lt_of_le_of_ne hnn (Ne.symm hz)
    simp [hz, hpos]

theorem workerAvgDur_eq_spec {recs : List PickRecord} {w : String}
    (h : ∀ r ∈ recs, 0 ≤ r.count) :
    workerAvgDur recs w = specWeightedAvg (recsOfWorker recs w) := by
  have hg : ∀ r ∈ recsOfWorker recs w, 0 ≤ r.count :=
    fun r hr => h r (List.mem_of_mem_filter hr)
  rw [workerAvgDur]
  by_cases hge : recsOfWorker recs w = []
  · rw [if_pos hge, hge]
    simp [specWeightedAvg, sumCounts, weightedSum]
  · rw [if_neg hge, npDiv, specWeightedAvg]
    by_cases hz : sumCounts (recsOfWorker recs w) = 0
    · rw [weightedSum_eq_zero hg hz, hz]
      simp
    · have hcast : ((sumCounts (recsOfWorker recs w) : Int) : ℚ) ≠ 0 := by
        exact_mod_cast hz
      simp [hcast, hz]

/-! ### Claim theorems -/

/-- C1: every aggregate's weighted-average duration follows the spec
formula Σ(dᵢ·cᵢ)/Σcᵢ with result 0 when Σcᵢ = 0 — the overall metric of
line 180, each sighted worker's merged cell of lines 194-201 (where the
unguarded division's NaN at Σc = 0 becomes 0 through `fillna(0)`), each
period group of line 226, and each weekday group of line 240.  Stated for
record sets with the spec's non-negative pick counts (negative counts
cannot arise from well-formed picking reports). -/
theorem C1_weighted_average (recs : List PickRecord) (sgt : List Sighting)
    (h : ∀ r ∈ recs, 0 ≤ r.count) :
    avg_time_minutes recs = specWeightedAvg recs ∧
    (∀ w ∈ sightedWorkers sgt, workerAvgDur recs w = specWeightedAvg (recsOfWorker recs w)) ∧
    (∀ ym : Nat × Nat, trendAvgMonth recs ym = specWeightedAvg (monthGroup recs ym)) ∧
    (∀ d : Date, trendAvgDay recs d = specWeightedAvg (dayGroup recs d)) ∧
    (∀ wd : Nat, guardedWAvg (weekdayGroup recs wd) = specWeightedAvg (weekdayGroup recs wd)) := by
  refine ⟨guardedWAvg_eq_spec h, ?_, ?_, ?_, ?_⟩
  · intro w _
    exact workerAvgDur_eq_spec h
  · intro ym
    exact guardedWAvg_eq_spec (fun r hr => h r (List.mem_of_mem_filter hr))
  · intro d
    exact guardedWAvg_eq_spec (fun r hr => h r (List.mem_of_mem_filter hr))
  · intro wd
    exact guardedWAvg_eq_spec (fun r hr => h r (List.mem_of_mem_filter hr))

/-- Concrete corpus for the C1 witness: 이영희 has a single record with
pick count 0, exercising the NaN-then-`fillna(0)` path. -/
def c1Recs : List PickRecord :=
  [⟨⟨2024, 1, 1⟩, "김철수", 2, 10⟩, ⟨⟨2024, 1, 2⟩, "이영희", 0, 20⟩]

/-- Sightings matching `c1Recs`. -/
def c1Sgt : List Sighting :=
  [(⟨2024, 1, 1⟩, "김철수"), (⟨2024, 1, 2⟩, "이영희")]

unseal Rat.add Rat.mul Rat.sub Rat.inv in
theorem C1_weighted_average_witness :
    avg_time_minutes c1Recs = specWeightedAvg c1Recs ∧
    workerAvgDur c1Recs "이영희" = specWeightedAvg (recsOfWorker c1Recs "이영희") := by
  have h := C1_weighted_average c1Recs c1Sgt (by decide)
  exact ⟨h.1, h.2.1 "이영희" (by decide)⟩

/-- C4: with `picking_count_threshold = 0` and a `minute_threshold` at
least every record's duration (the "infinity-equivalent" maximum — every
parsed duration is below 24·60 minutes), the threshold filter of
lines 120-121 returns a valid corpus unchanged, records and order alike. -/
theorem C4_filter_identity (recs : List PickRecord) (mt : ℚ)
    (hmt : ∀ r ∈ recs, r.durMin ≤ mt) (hcnt : ∀ r ∈ recs, 0 ≤ r.count) :
    thresholdFilter mt 0 recs = recs := by
  rw [thresholdFilter]
  have h1 : recs.filter (fun r => decide (r.durMin ≤ mt)) = recs :=
    List.filter_eq_self.mpr (fun r hr => decide_eq_true (hmt r hr))
  rw [h1]
  exact List.filter_eq_self.mpr (fun r hr => decide_eq_true (hcnt r hr))

/-- Concrete corpus for the C4 witness. -/
def c4Recs : List PickRecord :=
  [⟨⟨2024, 1, 1⟩, "김철수", 50, 10⟩, ⟨⟨2024, 1, 2⟩, "이영희", 3, 25⟩]

unseal Rat.add Rat.mul Rat.sub Rat.inv in
theorem C4_filter_identity_witness : thresholdFilter 1440 0 c4Recs = c4Recs :=
  C4_filter_identity c4Recs 1440 (by decide) (by decide)

/-- C6: the two sequential exclusions of lines 120-121 equal one filter
by the conjunction duration ≤ minute_threshold AND count ≥
picking_count_threshold, the result is a sublist of the input (relative
order preserved), and membership in the result is exactly membership in
the input plus the two predicates (the input list itself is untouched —
the embedding is pure and the code works on fresh `.copy()` frames). -/
theorem C6_threshold_contract (recs : List PickRecord) (mt : ℚ) (pct : Int) :
    thresholdFilter mt pct recs
      = recs.filter (fun r => decide (r.durMin ≤ mt) && decide (pct ≤ r.count)) ∧
    (thresholdFilter mt pct recs).Sublist recs ∧
    (∀ r : PickRecord, r ∈ thresholdFilter mt pct recs ↔
       r ∈ recs ∧ r.durMin ≤ mt ∧ pct ≤ r.count) := by
  have heq : thresholdFilter mt pct recs
      = recs.filter (fun r => decide (r.durMin ≤ mt) && decide (pct ≤ r.count)) := by
    rw [thresholdFilter]
    induction recs with
    | nil => rfl
    | cons a l ih =>
      by_cases h1 : a.durMin ≤ mt <;> by_cases h2 : pct ≤ a.count <;>
        simp [List.filter_cons, h1, h2, ih]
  refine ⟨heq, ?_, ?_⟩
  · rw [heq]
    exact List.filter_sublist recs
  · intro r
    rw [heq, List.mem_filter]
    simp

/-- C7: a file whose filename date token parses to a Sunday
(`weekday() == 6`, line 57) is skipped before anything is recorded: it
contributes no valid rows and no sightings, and a batch of that file
alone builds two empty datasets with no error. -/
theorem C7_sunday_skipped (f : UploadedFile) (d : Date)
    (hp : parseDateYYYYMMDD (extractDateToken f.name) = some d)
    (hs : d.weekday = 6) :
    processFile f = ([], []) ∧ load_and_process_data [f] = ([], []) := by
  have h1 : processFile f = ([], []) := by
    rw [processFile, hp]
    simp [hs]
  refine ⟨h1, ?_⟩
  simp [load_and_process_data, h1]

/-- A Sunday file (2024-01-07) with a well-formed worker row, for the C7
witness. -/
def c7File : UploadedFile :=
  { name := "피킹바코드입력-20240107.xlsx"
    sheet := some [{ name := some "김철수", countStr := some "50", durStr := some "0:00:45" }] }

theorem C7_sunday_skipped_witness :
    processFile c7File = ([], []) ∧ load_and_process_data [c7File] = ([], []) :=
  C7_sunday_skipped c7File ⟨2024, 1, 7⟩ (by decide) (by decide)

/-- C8: a 요일별 window with an empty multiselect produces the two empty
datasets of lines 166-167 — "nothing selected", never the full corpus. -/
theorem C8_empty_weekday_selection (recs : List PickRecord) (sgt : List Sighting) :
    applyWindow (.byWeekdaySet []) recs sgt = ([], []) := by
  simp [applyWindow]

theorem mem_of_mem_thresholdFilter {recs : List PickRecord} {mt : ℚ} {pct : Int}
    {r : PickRecord} (h : r ∈ thresholdFilter mt pct recs) : r ∈ recs :=
  List.mem_of_mem_filter (List.mem_of_mem_filter h)

theorem mem_of_mem_applyWindow_fst {w : Window} {recs : List PickRecord}
    {sgt : List Sighting} {r : PickRecord}
    (h : r ∈ (applyWindow w recs sgt).1) : r ∈ recs := by
  cases w with
  | all => exact h
  | byYear y => exact List.mem_of_mem_filter h
  | byMonth y m => exact List.mem_of_mem_filter h
  | byDay d => exact List.mem_of_mem_filter h
  | byWeekdaySet days =>
    by_cases hd : days = []
    · rw [applyWindow, if_pos hd] at h
      exact absurd h (List.not_mem_nil r)
    · rw [applyWindow, if_neg hd] at h
      exact List.mem_of_mem_filter h

theorem durMin_nonneg_of_mem_corpus {files : List UploadedFile} {r : PickRecord}
    (hr : r ∈ (load_and_process_data files).1) : 0 ≤ r.durMin := by
  simp only [load_and_process_data] at hr
  split at hr
  · exact absurd hr (List.not_mem_nil r)
  · obtain ⟨v, _, rfl⟩ := List.mem_map.mp hr
    rw [canonicalize]
    positivity

/-- A file containing a row whose pick-count string is the negative
literal `-1` — accepted by `pd.to_numeric` and carried into the corpus. -/
def c2File : UploadedFile :=
  { name := "피킹바코드입력-20240101.xlsx"
    sheet := some [{ name := some "김철수", countStr := some "-1", durStr := some "0:00:45" }] }

unseal Rat.add Rat.mul Rat.sub Rat.inv in
/-- C2 counterexample: parsing `c2File` produces a PickRecord with pick
count −1 < 0, so "every PickRecord in the valid Corpus has a
non-negative integer pick count" fails on the code — lines 68 and 82
coerce the count without any sign check. -/
theorem C2_counterexample :
    ∃ r ∈ (load_and_process_data [c2File]).1, r.count < 0 := by decide

/-- C2 amended: every PickRecord carries an integer pick count (the
`astype(int)` of line 82) — possibly negative, since the parser accepts
negative count strings — and a non-negative average duration (time-of-day
components are never negative); the duration invariant holds after
parsing and is preserved by the threshold filter and every window. -/
theorem C2_amended_invariants (files : List UploadedFile) (mt : ℚ) (pct : Int)
    (w : Window) :
    (∀ r ∈ (load_and_process_data files).1, 0 ≤ r.durMin) ∧
    (∀ r ∈ (applyWindow w (thresholdFilter mt pct (load_and_process_data files).1)
              (load_and_process_data files).2).1, 0 ≤ r.durMin) := by
  refine ⟨fun r hr => durMin_nonneg_of_mem_corpus hr, fun r hr => ?_⟩
  exact durMin_nonneg_of_mem_corpus (mem_of_mem_thresholdFilter (mem_of_mem_applyWindow_fst hr))

/-- A well-formed Monday file for the C2 witness. -/
def c2GoodFile : UploadedFile :=
  { name := "피킹바코드입력-20240101.xlsx"
    sheet := some [{ name := some "김철수", countStr := some "50", durStr := some "0:00:45" }] }

unseal Rat.add Rat.mul Rat.sub Rat.inv in
theorem C2_amended_invariants_witness :
    0 ≤ (PickRecord.mk ⟨2024, 1, 1⟩ "김철수" 50 (3 / 4)).durMin :=
  (C2_amended_invariants [c2GoodFile] 30 0 .all).1 _ (by decide)

/-- C3 helper: a worker with no record in the filtered set has an empty
`groupby` group. -/
theorem recsOfWorker_eq_nil {recs : List PickRecord} {w : String}
    (habs : ∀ r ∈ recs, r.worker ≠ w) : recsOfWorker recs w = [] := by
  rw [recsOfWorker, List.filter_eq_nil_iff]
  intro r hr
  simpa using habs r hr

/-- C3: a worker sighted in the window but absent from the windowed,
filtered record set still receives a `final_worker_analysis` row (the
left join of line 201 keeps every sighted worker), and that row is fully
zero-filled: total count 0, weighted-average duration 0 (also after the
display rounding), day count 0, daily average 0, and all three ranks
forced to 0 by `.where(총_피킹횟수 > 0, 0)` — unranked, not tied-last.
Stated for corpora with the spec's non-negative pick counts so that the
finite-float model matches numpy. -/
theorem C3_zero_pick_worker (recs : List PickRecord) (sgt : List Sighting)
    (w : String) (d : Date)
    (hw : (d, w) ∈ sgt)
    (habs : ∀ r ∈ recs, r.worker ≠ w)
    (_hval : ∀ r ∈ recs, 0 ≤ r.count) :
    ∃ row ∈ final_worker_analysis recs sgt,
      row.worker = w ∧ row.totalCount = 0 ∧ row.avgDur = 0 ∧ row.avgDurInt = 0 ∧
      row.dayCount = 0 ∧ row.dailyAvg = 0 ∧
      row.timeRank = 0 ∧ row.countRank = 0 ∧ row.dailyRank = 0 := by
  have hg : recsOfWorker recs w = [] := recsOfWorker_eq_nil habs
  have ht : workerTotal recs w = 0 := by rw [workerTotal, hg]; rfl
  have ha : workerAvgDur recs w = 0 := by rw [workerAvgDur, hg]; simp
  have hd : workerDays recs w = 0 := by rw [workerDays, hg]; rfl
  have hdaily : workerDailyAvg recs w = 0 := by rw [workerDailyAvg, hd]; simp
  have hround : roundHalfEven 0 = 0 := by rw [roundHalfEven]; norm_num
  refine ⟨workerRowOf recs sgt w,
    List.mem_map.mpr ⟨w, mem_sightedWorkers d hw, rfl⟩, ?_⟩
  rw [workerRowOf]
  simp only [ha, ht, hd, hdaily, hround]
  norm_num

/-- Records for the C3 witness: only 이영희 has picking data. -/
def c3Recs : List PickRecord := [⟨⟨2024, 1, 2⟩, "이영희", 5, 10⟩]

/-- Sightings for the C3 witness: 김철수 appears in a file but has no
valid record. -/
def c3Sgt : List Sighting := [(⟨2024, 1, 2⟩, "이영희"), (⟨2024, 1, 2⟩, "김철수")]

unseal Rat.add Rat.mul Rat.sub Rat.inv in
theorem C3_zero_pick_worker_witness :
    ∃ row ∈ final_worker_analysis c3Recs c3Sgt,
      row.worker = "김철수" ∧ row.totalCount = 0 ∧ row.avgDur = 0 ∧ row.avgDurInt = 0 ∧
      row.dayCount = 0 ∧ row.dailyAvg = 0 ∧
      row.timeRank = 0 ∧ row.countRank = 0 ∧ row.dailyRank = 0 :=
  C3_zero_pick_worker c3Recs c3Sgt "김철수" ⟨2024, 1, 2⟩ (by decide) (by decide) (by decide)

theorem perm_insertBy {α : Type} (le : α → α → Bool) (a : α) :
    ∀ l : List α, List.Perm (insertBy le a l) (a :: l) := by
  intro l
  induction l with
  | nil => exact List.Perm.refl _
  | cons b l ih =>
    rw [insertBy]
    by_cases h : le a b
    · rw [if_pos h]
    · rw [if_neg h]
      exact (ih.cons b).trans (List.Perm.swap a b l)

theorem perm_sortBy {α : Type} (le : α → α → Bool) :
    ∀ l : List α, List.Perm (sortBy le l) l := by
  intro l
  induction l with
  | nil => exact List.Perm.refl _
  | cons a l ih =>
    rw [sortBy, List.foldr_cons]
    exact (perm_insertBy le a _).trans (ih.cons a)

theorem display_df_timeRank {recs : List PickRecord} {row : DetailRow}
    (hrow : row ∈ display_df recs) :
    row.timeRank = 1 + recs.countP (fun r => decide (r.durMin < row.record.durMin)) := by
  rw [display_df] at hrow
  simp only [List.mem_map] at hrow
  obtain ⟨r, _, rfl⟩ := hrow
  show rankMinAsc ((sortBy detailLE recs).map PickRecord.durMin) r.durMin = _
  rw [rankMinAsc, List.countP_map]
  congr 1
  exact ((perm_sortBy detailLE recs).countP_eq _)

theorem display_df_countRank {recs : List PickRecord} {row : DetailRow}
    (hrow : row ∈ display_df recs) :
    row.countRank = 1 + recs.countP (fun r => decide (row.record.count < r.count)) := by
  rw [display_df] at hrow
  simp only [List.mem_map] at hrow
  obtain ⟨r, _, rfl⟩ := hrow
  show rankMinDesc ((sortBy detailLE recs).map PickRecord.count) r.count = _
  rw [rankMinDesc, List.countP_map]
  congr 1
  exact ((perm_sortBy detailLE recs).countP_eq _)

/-- Three same-day records with durations 10, 10, 20 — the spec's
ranking example. -/
def c5Recs : List PickRecord :=
  [⟨⟨2024, 1, 2⟩, "가", 5, 10⟩, ⟨⟨2024, 1, 2⟩, "나", 3, 10⟩, ⟨⟨2024, 1, 2⟩, "다", 1, 20⟩]

unseal Rat.add Rat.mul Rat.sub Rat.inv in
/-- C5: every rank column is a `method='min'` competition rank.  In the
detail view each row's ascending duration rank is one plus the number of
strictly faster windowed records (and descending count rank one plus the
number of strictly larger counts), so equal values share a rank; on
durations [10, 10, 20] the ascending ranks are [1, 1, 3], not [1, 1, 2].
The byWorker and byWeekday tables rank through the same `rankMinAsc`
function over their columns (byWorker rows only keep that rank while the
worker has picks — the zero override of C3). -/
theorem C5_min_ranking :
    (∀ (recs : List PickRecord) (row : DetailRow), row ∈ display_df recs →
       row.timeRank = 1 + recs.countP (fun r => decide (r.durMin < row.record.durMin)) ∧
       row.countRank = 1 + recs.countP (fun r => decide (row.record.count < r.count))) ∧
    (∀ (recs : List PickRecord) (r1 r2 : DetailRow),
       r1 ∈ display_df recs → r2 ∈ display_df recs →
       r1.record.durMin = r2.record.durMin → r1.timeRank = r2.timeRank) ∧
    ((display_df c5Recs).map DetailRow.timeRank = [1, 1, 3]) ∧
    (∀ (recs : List PickRecord) (sgt : List Sighting) (row : WorkerRow),
       row ∈ final_worker_analysis recs sgt → 0 < row.totalCount →
       row.timeRank = rankMinAsc (workerAvgCol recs sgt) row.avgDur) ∧
    (∀ (recs : List PickRecord) (row : DowRow), row ∈ dow_analysis recs →
       row.timeRank = rankMinAsc (dowAvgIntCol recs) row.avgDurInt) := by
  refine ⟨?_, ?_, ?_, ?_, ?_⟩
  · intro recs row hrow
    exact ⟨display_df_timeRank hrow, display_df_countRank hrow⟩
  · intro recs r1 r2 h1 h2 hdur
    rw [display_df_timeRank h1, display_df_timeRank h2, hdur]
  · decide
  · intro recs sgt row hrow hpos
    rw [final_worker_analysis] at hrow
    obtain ⟨w, _, rfl⟩ := List.mem_map.mp hrow
    have hpos' : 0 < workerTotal recs w := hpos
    show (if 0 < workerTotal recs w
        then rankMinAsc (workerAvgCol recs sgt) (workerAvgDur recs w) else 0) = _
    rw [if_pos hpos']
    rfl
  · intro recs row hrow
    rw [dow_analysis] at hrow
    obtain ⟨wd, _, rfl⟩ := List.mem_map.mp hrow
    rfl

/-- The detail row of the slowest record in `c5Recs`. -/
def c5Row : DetailRow :=
  { record := ⟨⟨2024, 1, 2⟩, "다", 1, 20⟩, timeRank := 3, countRank := 3, durMinInt := 20 }

unseal Rat.add Rat.mul Rat.sub Rat.inv in
theorem C5_min_ranking_witness :
    c5Row ∈ display_df c5Recs ∧
    c5Row.timeRank = 1 + c5Recs.countP (fun r => decide (r.durMin < c5Row.record.durMin)) :=
  ⟨by decide, (C5_min_ranking.1 c5Recs c5Row (by decide)).1⟩

/-- C9 counterexample: a config file whose entire content is the valid
JSON number `3` decodes fine (so `JSONDecodeError` is not raised) but
`default_config.update(3)` raises `TypeError`, which the `except` clause
of lines 37-38 does not catch — an exception escapes `load_config`
instead of the defaults being returned. -/
theorem C9_counterexample : load_config (.parsed (.num 3)) = .error () := rfl

/-- C9 amended: `load_config` silently returns the defaults {30, 0} when
the config file is missing or its content fails JSON decoding, and merges
any decoded JSON object over the defaults; but when the decoded top-level
value is not dict-compatible (e.g. a bare number), the uncaught
`dict.update` error escapes, so "load_config never fails" does not hold. -/
theorem C9_amended_load_config (kvs : List (String × Json)) :
    load_config .missing = .ok defaultConfig ∧
    load_config .undecodable = .ok defaultConfig ∧
    load_config (.parsed (.obj kvs)) = .ok (dictUpdatePairs defaultConfig kvs) ∧
    load_config (.parsed (.num 3)) = .error () :=
  ⟨rfl, rfl, rfl, rfl⟩

/-- C10: a decoded config object holding only one of the two keys merges
per key — the stored value wins for its key and the default fills the
other key (`dict.update` on line 36 replaces exactly the keys present). -/
theorem C10_partial_config_merge (v : Json) :
    load_config (.parsed (.obj [("minute_threshold", v)]))
      = .ok [("minute_threshold", v), ("picking_count_threshold", .num 0)] ∧
    load_config (.parsed (.obj [("picking_count_threshold", v)]))
      = .ok [("minute_threshold", .num 30), ("picking_count_threshold", v)] :=
  ⟨rfl, rfl⟩

end Picking
